import Mathlib

/-
Verification of the MySQL VM helper module (src/mysql_vm_helpers.py) of the
mysql-operator repository, as a shallow embedding in Lean 4.

External effects (subprocess execution, the snap manager, the filesystem and
the readiness probes) are modelled as explicit oracle/environment values passed
to each embedded operation. Machine time inside the tenacity retry decorators
is idealised: attempts are instantaneous and happen at multiples of the
configured interval, which is the schedule the decorators configure.
-/

set_option maxRecDepth 4000

/-- Exception kinds raised by the Python runtime and the snap library inside the
install sequence. `snapError` is snap.SnapError; `snapNotFoundError` is
snap.SnapNotFoundError (a sibling of SnapError, not a subclass);
`calledProcessError` is subprocess.CalledProcessError; `otherException` stands
for any other Exception. -/
inductive PyExc where
  | snapError
  | snapNotFoundError
  | calledProcessError
  | otherException
deriving DecidableEq

/-- Error values that the helper module raises, one constructor per exception
class appearing in src/mysql_vm_helpers.py. `plainException` is the bare
`Exception` raised for a colliding snap install; `snapErrorRaw` is a
snap.SnapError re-raised unmodified by the install sequence. -/
inductive PyError where
  | MySQLExecError (stderr : String)
  | MySQLServiceNotRunningError (msg : String)
  | MySQLResetRootPasswordAndStartMySQLDError (msg : String)
  | MySQLRestoreBackupError (msg : String)
  | MySQLStartMySQLDError (msg : String)
  | MySQLStopMySQLDError (msg : String)
  | SnapServiceOperationError (msg : String)
  | MySQLExporterConnectError (msg : String)
  | MySQLInstallError
  | snapErrorRaw
  | plainException (msg : String)
deriving DecidableEq

/-- Result of running one external command (a Python CompletedProcess with
captured output). -/
structure CmdResult where
  exitCode : Nat
  stdout : String
  stderr : String
deriving DecidableEq

/- Constants imported from the constants module (that module is not under
src/; only the symbolic role of each value matters to the helpers). -/

def CHARMED_MYSQL_SNAP_NAME : String := "charmed-mysql"

def CHARMED_MYSQLD_SERVICE : String := "mysqld"

def CHARMED_MYSQLD_EXPORTER_SERVICE : String := "mysqld-exporter"

def MYSQL_SYSTEM_USER : String := "snap_daemon"

def ROOT_SYSTEM_USER : String := "root"

def MYSQL_DATA_DIR : String := "/var/snap/charmed-mysql/common/var/lib/mysql"

/-- Shared retry loop of the tenacity decorators used in the module, with
idealised instantaneous attempts. `op i` is attempt number `i` (0-based); the
loop makes `fuel + 1` attempts, stopping early at the first success. The value
of the final attempt is returned as-is, so on exhaustion the caller sees the
last underlying error unchanged (tenacity reraise=True), or can map it to a
RetryError itself (tenacity default). -/
def retryAux (op : Nat → Except ε α) (i : Nat) : Nat → Except ε α
  | 0 => op i
  | fuel + 1 =>
    match op i with
    | .ok a => .ok a
    | .error _ => retryAux op (i + 1) fuel

/-- Observations available to one attempt of wait_until_mysql_connection:
whether the mysqld socket file exists, and whether check_mysqlsh_connection
(the administrative connection probe, implemented on the base class) succeeds. -/
structure WaitObs where
  socketExists : Bool
  mysqlshConnectionOk : Bool
deriving DecidableEq

/-- One attempt of wait_until_mysql_connection (the decorated function body):
raise MySQLServiceNotRunningError when the socket file is absent; when
check_port is set, additionally raise it when the mysqlsh probe fails. -/
def wait_until_mysql_connection_once (check_port : Bool) (w : WaitObs) :
    Except PyError Unit :=
  if !w.socketExists then
    .error (.MySQLServiceNotRunningError "MySQL socket file not found")
  else if check_port && !w.mysqlshConnectionOk then
    .error (.MySQLServiceNotRunningError "Connection with mysqlsh not possible")
  else
    .ok ()

/-- wait_until_mysql_connection, decorated with
tenacity retry(reraise=True, stop=stop_after_delay(120), wait=wait_fixed(5)):
attempts run at elapsed seconds 0, 5, 10, ..., 120 (25 attempts under the
idealised clock; `obsAt t` is the observation at elapsed second `t`), and on
exhaustion the last underlying error is re-raised unchanged. -/
def wait_until_mysql_connection (check_port : Bool) (obsAt : Nat → WaitObs) :
    Except PyError Unit :=
  retryAux (fun i => wait_until_mysql_connection_once check_port (obsAt (5 * i))) 0 (120 / 5)

/-- Expected minimal content of an initialised mysqld data directory, verbatim
from is_data_dir_initialised. -/
def expected_content : List String :=
  [ "mysql", "public_key.pem", "sys", "ca.pem", "client-key.pem", "mysql.ibd",
    "auto.cnf", "server-cert.pem", "ib_buffer_pool", "server-key.pem",
    "undo_002", "#innodb_redo", "undo_001", "#innodb_temp", "private_key.pem",
    "client-cert.pem", "ca-key.pem", "performance_schema" ]

/-- is_data_dir_initialised: `listing` is what os.listdir(MYSQL_DATA_DIR)
returns, `none` when the directory does not exist (os.listdir raises
FileNotFoundError, which the function catches and turns into False). Otherwise
the function returns whether the expected content is a subset of the actual
listing. -/
def is_data_dir_initialised (listing : Option (List String)) : Bool :=
  match listing with
  | none => false
  | some content => expected_content.all (fun x => content.contains x)

/-- is_volume_mounted: probe the mount point with
Retrying(stop=stop_after_attempt(10), wait=wait_fixed(12)). `probeAt t` is the
result of `mountpoint -q` run at elapsed second `t` (error = CalledProcessError
with the failing exit code); attempts run at elapsed seconds 0, 12, ..., 108.
On exhaustion tenacity raises RetryError, which the function catches and turns
into False; on any success within the 10 attempts it returns True. -/
def is_volume_mounted (probeAt : Nat → Except Nat Unit) : Bool :=
  match retryAux (fun i => probeAt (12 * i)) 0 9 with
  | .ok _ => true
  | .error _ => false

/- Generic lemmas about the retry loop. -/

theorem retryAux_all_fail {ε α : Type} (op : Nat → Except ε α) (i : Nat) :
    ∀ fuel : Nat, (∀ k, k ≤ fuel → ∀ a, op (i + k) ≠ .ok a) →
      retryAux op i fuel = op (i + fuel) := by
  intro fuel
  induction fuel generalizing i with
  | zero => intro _; simp [retryAux]
  | succ n ih =>
    intro h
    have h0 : ∀ a, op i ≠ .ok a := by
      have := h 0 (Nat.zero_le _)
      simpa using this
    unfold retryAux
    cases hop : op i with
    | ok a => exact absurd hop (h0 a)
    | error e =>
      have hrec := ih (i + 1) (by
        intro k hk a
        have := h (k + 1) (Nat.succ_le_succ hk) a
        have heq : i + 1 + k = i + (k + 1) := by omega
        rw [heq]
        exact this)
      have heq2 : i + 1 + n = i + (n + 1) := by omega
      rw [hrec, heq2]

theorem retryAux_ok_iff {ε α : Type} (op : Nat → Except ε α) (i : Nat) :
    ∀ fuel : Nat, ((∃ a, retryAux op i fuel = .ok a) ↔
      ∃ k, k ≤ fuel ∧ ∃ a, op (i + k) = .ok a) := by
  intro fuel
  induction fuel generalizing i with
  | zero =>
    simp [retryAux]
  | succ n ih =>
    unfold retryAux
    cases hop : op i with
    | ok a =>
      constructor
      · intro _
        exact ⟨0, Nat.zero_le _, a, by simpa using hop⟩
      · intro _
        exact ⟨a, rfl⟩
    | error e =>
      rw [ih (i + 1)]
      constructor
      · rintro ⟨k, hk, b, hok⟩
        refine ⟨k + 1, Nat.succ_le_succ hk, b, ?_⟩
        have heq : i + 1 + k = i + (k + 1) := by omega
        rwa [heq] at hok
      · rintro ⟨k, hk, b, hok⟩
        cases k with
        | zero =>
          rw [Nat.add_zero, hop] at hok
          exact absurd hok (by simp)
        | succ m =>
          refine ⟨m, Nat.le_of_succ_le_succ hk, b, ?_⟩
          have heq : i + (m + 1) = i + 1 + m := by omega
          rwa [heq] at hok

/-- State of the snap manager for the one snap/service pair an operation
targets, together with the outcome the manager would give each operation kind.
`present` is charmed_mysql.present; `active` is the current
services[service]["active"] flag; the three `...Raises` flags say whether the
corresponding snap client call raises snap.SnapError. A successful start (with
enable) leaves the service active, a successful stop (with disable) leaves it
inactive. -/
structure SnapWorld where
  present : Bool
  active : Bool
  startRaises : Bool
  stopRaises : Bool
  restartRaises : Bool
deriving DecidableEq

/-- snap_service_operation: run an operation on a snap service. Invalid
operation names and an absent snap raise SnapServiceOperationError directly;
snap.SnapError from the snap client is caught and converted to a
SnapServiceOperationError with the standard failure message. Returns the
service activity flag (negated for stop), with the new snap world. -/
def snap_service_operation (w : SnapWorld) (snapname service operation : String) :
    Except PyError Bool × SnapWorld :=
  let failMsg := "Failed to run snap service operation, snap=" ++ snapname ++
    ", service=" ++ service ++ ", operation=" ++ operation
  if !(operation == "restart" || operation == "start" || operation == "stop") then
    (.error (.SnapServiceOperationError ("Invalid snap service operation " ++ operation)), w)
  else if !w.present then
    (.error (.SnapServiceOperationError ("Snap " ++ snapname ++ " not installed")), w)
  else if operation == "restart" then
    if w.restartRaises then (.error (.SnapServiceOperationError failMsg), w)
    else
      let w2 : SnapWorld := { w with active := true }
      (.ok w2.active, w2)
  else if operation == "start" then
    if w.startRaises then (.error (.SnapServiceOperationError failMsg), w)
    else
      let w2 : SnapWorld := { w with active := true }
      (.ok w2.active, w2)
  else
    if w.stopRaises then (.error (.SnapServiceOperationError failMsg), w)
    else
      let w2 : SnapWorld := { w with active := false }
      (.ok (!w2.active), w2)

/-- stop_mysqld: delegate to snap_service_operation for a stop of the mysqld
service, converting SnapServiceOperationError to MySQLStopMySQLDError with the
same message. -/
def stop_mysqld (w : SnapWorld) : Except PyError Unit × SnapWorld :=
  match snap_service_operation w CHARMED_MYSQL_SNAP_NAME CHARMED_MYSQLD_SERVICE "stop" with
  | (.error (.SnapServiceOperationError m), w2) => (.error (.MySQLStopMySQLDError m), w2)
  | (.error e, w2) => (.error e, w2)
  | (.ok _, w2) => (.ok (), w2)

/-- start_mysqld: start the mysqld service via snap_service_operation, then
block on wait_until_mysql_connection (with its default check_port=True);
MySQLServiceNotRunningError and SnapServiceOperationError are both converted to
MySQLStartMySQLDError carrying the same message. `obsAt` are the readiness
observations by elapsed second. -/
def start_mysqld (w : SnapWorld) (obsAt : Nat → WaitObs) :
    Except PyError Unit × SnapWorld :=
  match snap_service_operation w CHARMED_MYSQL_SNAP_NAME CHARMED_MYSQLD_SERVICE "start" with
  | (.error (.SnapServiceOperationError m), w2) => (.error (.MySQLStartMySQLDError m), w2)
  | (.error e, w2) => (.error e, w2)
  | (.ok _, w2) =>
    match wait_until_mysql_connection true obsAt with
    | .error (.MySQLServiceNotRunningError m) => (.error (.MySQLStartMySQLDError m), w2)
    | .error e => (.error e, w2)
    | .ok _ => (.ok (), w2)

/-- restart_mysqld: stop_mysqld, then start_mysqld, sequentially; an exception
from the stop propagates and skips the start. -/
def restart_mysqld (w : SnapWorld) (obsAt : Nat → WaitObs) :
    Except PyError Unit × SnapWorld :=
  match stop_mysqld w with
  | (.error e, w2) => (.error e, w2)
  | (.ok _, w2) => start_mysqld w2 obsAt

/-- State for the exporter sidecar operations: the snap world of the
mysqld-exporter service plus the snap configuration surface.
`setRaises` says whether mysqld_snap.set (setting exporter.user and
exporter.password) raises snap.SnapError. -/
structure ExporterWorld where
  snapw : SnapWorld
  setRaises : Bool
  exporterUser : Option String
  exporterPassword : Option String
deriving DecidableEq

/-- connect_mysql_exporter: set the exporter credentials on the snap
configuration surface, then start the mysqld-exporter service. Only a raw
snap.SnapError (here: from the set call) is caught and converted to
MySQLExporterConnectError; snap_service_operation raises
SnapServiceOperationError, which is not a snap.SnapError and therefore
propagates unmodified. -/
def connect_mysql_exporter (monitoring_user monitoring_password : String)
    (w : ExporterWorld) : Except PyError Unit × ExporterWorld :=
  if w.setRaises then
    (.error (.MySQLExporterConnectError "Error setting up mysqld-exporter"), w)
  else
    let w1 : ExporterWorld :=
      { w with exporterUser := some monitoring_user,
               exporterPassword := some monitoring_password }
    match snap_service_operation w1.snapw CHARMED_MYSQL_SNAP_NAME
        CHARMED_MYSQLD_EXPORTER_SERVICE "start" with
    | (.error e, sw) => (.error e, { w1 with snapw := sw })
    | (.ok _, sw) => (.ok (), { w1 with snapw := sw })

/-- stop_mysql_exporter: stop the mysqld-exporter service. As in
connect_mysql_exporter, only a raw snap.SnapError would be converted to
MySQLExporterConnectError, and snap_service_operation never raises one, so its
errors propagate unmodified. -/
def stop_mysql_exporter (w : ExporterWorld) : Except PyError Unit × ExporterWorld :=
  match snap_service_operation w.snapw CHARMED_MYSQL_SNAP_NAME
      CHARMED_MYSQLD_EXPORTER_SERVICE "stop" with
  | (.error e, sw) => (.error e, { w with snapw := sw })
  | (.ok _, sw) => (.ok (), { w with snapw := sw })

/-- Modelled from the spec: `_stop_mysql_exporter`, called by
restart_mysql_exporter, resolves on the MySQL base class
(charms.mysql.v0.mysql), whose source is not under src/. Per the spec, the
exporter restart is stop-then-start of the sidecar service, so the stop half is
the operation implemented by stop_mysql_exporter. -/
def _stop_mysql_exporter (w : ExporterWorld) : Except PyError Unit × ExporterWorld :=
  stop_mysql_exporter w

/-- Modelled from the spec: `_connect_mysql_exporter`, called by
restart_mysql_exporter, resolves on the MySQL base class
(charms.mysql.v0.mysql), whose source is not under src/. Per the spec, the
start half of the exporter restart configures sidecar credentials and starts
the sidecar service, which is the operation implemented by
connect_mysql_exporter. -/
def _connect_mysql_exporter (monitoring_user monitoring_password : String)
    (w : ExporterWorld) : Except PyError Unit × ExporterWorld :=
  connect_mysql_exporter monitoring_user monitoring_password w

/-- restart_mysql_exporter: stop the exporter, then connect (configure and
start) it, sequentially; an exception from the stop propagates and skips the
start. -/
def restart_mysql_exporter (monitoring_user monitoring_password : String)
    (w : ExporterWorld) : Except PyError Unit × ExporterWorld :=
  match _stop_mysql_exporter w with
  | (.error e, w2) => (.error e, w2)
  | (.ok _, w2) => _connect_mysql_exporter monitoring_user monitoring_password w2

/-- Python with-statement over tempfile.NamedTemporaryFile(delete=True): the
file named `name` exists while the body runs and is deleted when the scope
exits, whether the body returns normally or raises. The filesystem is the list
of existing file names. -/
def withTempFile {α : Type} (name : String) (body : List String → α × List String)
    (fs : List String) : α × List String :=
  let fs1 := name :: fs
  let r := body fs1
  (r.1, r.2.filter (fun n => n ≠ name))

/-- Environment for reset_root_password_and_start_mysqld: exit codes of the two
sudo chown invocations (subprocess.check_output raises CalledProcessError on a
nonzero exit) and the readiness observations for the enclosed
wait_until_mysql_connection call. -/
structure ResetEnv where
  chownSqlExit : Nat
  chownCnfExit : Nat
  obsAt : Nat → WaitObs

/-- Body of reset_root_password_and_start_mysqld, run inside the two temporary
file scopes: chown the init SQL file, chown the config fragment, start the
mysqld service, then wait for readiness with check_port=False. Each failing
step raises MySQLResetRootPasswordAndStartMySQLDError with its own message. -/
def reset_root_password_and_start_mysqld_body (env : ResetEnv) (w : SnapWorld) :
    Except PyError Unit × SnapWorld :=
  if env.chownSqlExit ≠ 0 then
    (.error (.MySQLResetRootPasswordAndStartMySQLDError
      "Failed to change permissions for temp SQL file"), w)
  else if env.chownCnfExit ≠ 0 then
    (.error (.MySQLResetRootPasswordAndStartMySQLDError
      "Failed to change permissions for custom mysql config"), w)
  else
    match snap_service_operation w CHARMED_MYSQL_SNAP_NAME CHARMED_MYSQLD_SERVICE "start" with
    | (.error (.SnapServiceOperationError _), w2) =>
      (.error (.MySQLResetRootPasswordAndStartMySQLDError "Failed to restart mysqld"), w2)
    | (.error e, w2) => (.error e, w2)
    | (.ok _, w2) =>
      match wait_until_mysql_connection false env.obsAt with
      | .error (.MySQLServiceNotRunningError _) =>
        (.error (.MySQLResetRootPasswordAndStartMySQLDError "mysqld service not running"), w2)
      | .error e => (.error e, w2)
      | .ok _ => (.ok (), w2)

/-- reset_root_password_and_start_mysqld: the body above wrapped in the two
NamedTemporaryFile scopes (the config fragment in the mysqld config directory,
and inside it the init SQL file in the snap common directory). `cnfName` and
`sqlName` are the generated temporary file names; `fs` is the filesystem as a
list of file names. Returns ((result, snap world), filesystem). -/
def reset_root_password_and_start_mysqld (cnfName sqlName : String)
    (env : ResetEnv) (w : SnapWorld) (fs : List String) :
    (Except PyError Unit × SnapWorld) × List String :=
  withTempFile cnfName (fun fs1 =>
    withTempFile sqlName (fun fs2 =>
      (reset_root_password_and_start_mysqld_body env w, fs2)) fs1) fs

/-- Host state relevant to install_and_configure_mysql_dependencies: whether
the charmed-mysql snap is present, whether the marker file
installed_by_mysql_server_charm exists in the snap common directory, whether
the snap is held, whether the common directory exists, and its owner. -/
structure InstallState where
  snapPresent : Bool
  markerExists : Bool
  snapHeld : Bool
  commonDirExists : Bool
  commonDirOwner : String
deriving DecidableEq

/-- Outcomes the environment gives each fallible step of the install sequence
(`none` = the step succeeds, `some e` = the step raises `e`). `ownerAfterChown`
is the common directory owner after the `os.system chown` call, whose exit
status the code ignores (os.system raises nothing on command failure). -/
structure InstallEnv where
  ensureRaises : Option PyExc
  holdRaises : Option PyExc
  mysqlshHelpRaises : Option PyExc
  ownerAfterChown : String
  snapAliasRaises : Option PyExc
  touchRaises : Option PyExc
deriving DecidableEq

/-- Try-block body of install_and_configure_mysql_dependencies, raising raw
Python exceptions: ensure the snap at the pinned revision, hold it if not held,
create the snap common directory by running charmed-mysql.mysqlsh --help if the
directory is absent, chown the common directory if its owner is not the mysql
system user (exit status ignored), register the snap alias, and finally touch
the marker file. State changes made before a raising step persist. -/
def install_try_body (env : InstallEnv) (s : InstallState) :
    Except PyExc Unit × InstallState :=
  match env.ensureRaises with
  | some e => (.error e, s)
  | none =>
    let s1 : InstallState := { s with snapPresent := true }
    match (if !s1.snapHeld then env.holdRaises else none) with
    | some e => (.error e, s1)
    | none =>
      let s2 : InstallState := { s1 with snapHeld := true }
      match (if !s2.commonDirExists then env.mysqlshHelpRaises else none) with
      | some e => (.error e, s2)
      | none =>
        let s3 : InstallState := { s2 with commonDirExists := true }
        let s4 : InstallState :=
          if s3.commonDirOwner ≠ MYSQL_SYSTEM_USER then
            { s3 with commonDirOwner := env.ownerAfterChown }
          else s3
        match env.snapAliasRaises with
        | some e => (.error e, s4)
        | none =>
          match env.touchRaises with
          | some e => (.error e, s4)
          | none => (.ok (), { s4 with markerExists := true })

/-- install_and_configure_mysql_dependencies: abort with a bare Exception when
the snap is already present but the marker file is absent (a competing install
of the same snap); otherwise run the install sequence, re-raising snap.SnapError
unmodified (so the caller can retry) and wrapping every other exception
(CalledProcessError, SnapNotFoundError, any other Exception) into
MySQLInstallError. -/
def install_and_configure_mysql_dependencies (env : InstallEnv) (s : InstallState) :
    Except PyError Unit × InstallState :=
  if s.snapPresent && !s.markerExists then
    (.error (.plainException ("Multiple " ++ CHARMED_MYSQL_SNAP_NAME ++
      " snap installs not supported on one machine")), s)
  else
    match install_try_body env s with
    | (.ok (), s2) => (.ok (), s2)
    | (.error .snapError, s2) => (.error .snapErrorRaw, s2)
    | (.error _, s2) => (.error .MySQLInstallError, s2)

/-- Python subprocess.run: returns the completed process result, and raises
subprocess.CalledProcessError exactly when `check` is true and the exit status
is nonzero. The restore_backup chmod/chown calls pass no check argument, so for
them `check` is False (the Python default). -/
def subprocess_run (r : CmdResult) (check : Bool) : Except CmdResult CmdResult :=
  if check && r.exitCode != 0 then .error r else .ok r

deriving instance DecidableEq for Except

/-- Environment for restore_backup: the results of the three permission and
ownership commands it runs (chmod 770, chmod 750, chown -R on the data
directory) and the outcome of the base-class restore step
(super().restore_backup), which moves the prepared files into the data
directory and is implemented on the base class outside src/. -/
structure RestoreEnv where
  chmod770 : CmdResult
  chmod750 : CmdResult
  chownDataDir : CmdResult
  superRestore : Except PyError (String × String)
deriving DecidableEq

/-- restore_backup: relax the data directory mode with `chmod 770` (a
subprocess.run call without check=True, inside a try/except CalledProcessError
that converts to MySQLRestoreBackupError), then run the base-class restore,
then revert the mode with `chmod 750` and re-own the directory with
`chown -R` (again subprocess.run without check=True, inside a try/except
CalledProcessError converting to MySQLRestoreBackupError). The returned Bool
records whether the base-class restore step was reached. -/
def restore_backup (env : RestoreEnv) : Except PyError (String × String) × Bool :=
  match subprocess_run env.chmod770 false with
  | .error e => (.error (.MySQLRestoreBackupError e.stderr), false)
  | .ok _ =>
    match env.superRestore with
    | .error e => (.error e, true)
    | .ok (out, err) =>
      match subprocess_run env.chmod750 false with
      | .error e => (.error (.MySQLRestoreBackupError e.stderr), true)
      | .ok _ =>
        match subprocess_run env.chownDataDir false with
        | .error e => (.error (.MySQLRestoreBackupError e.stderr), true)
        | .ok _ => (.ok (out, err), true)

/-- Process environment update: os.environ.copy() followed by
env.update(env_extra); keys of `extra` override those of `base`, new keys are
added. -/
def envUpdate (base extra : List (String × String)) : List (String × String) :=
  base.filter (fun p => extra.all (fun q => q.1 ≠ p.1)) ++ extra

/-- The _execute_commands helper. `run argv user group env` is the oracle for
subprocess.run with capture_output and check=True. When `bash` is set, the
joined command is wrapped in a bash invocation with pipefail enabled. On a zero
exit status the trimmed stdout/stderr pair is returned; a nonzero exit raises
CalledProcessError, which is converted to MySQLExecError carrying the captured
stderr. The environment passed to the oracle is the process environment updated
with env_extra. -/
def _execute_commands
    (run : List String → Option String → Option String →
      List (String × String) → CmdResult)
    (osEnviron : List (String × String))
    (commands : List String) (bash : Bool) (user group : Option String)
    (env_extra : List (String × String)) : Except PyError (String × String) :=
  let env := envUpdate osEnviron env_extra
  let argv :=
    if bash then
      ["bash", "-c", "set -o pipefail; " ++ String.intercalate " " commands]
    else commands
  let r := run argv user group env
  if r.exitCode == 0 then
    .ok (r.stdout.trim, r.stderr.trim)
  else
    .error (.MySQLExecError r.stderr)

theorem retryAux_error_from {ε α : Type} (op : Nat → Except ε α) (i : Nat) :
    ∀ fuel e, retryAux op i fuel = .error e → ∃ k, k ≤ fuel ∧ op (i + k) = .error e := by
  intro fuel
  induction fuel generalizing i with
  | zero =>
    intro e h
    exact ⟨0, Nat.le_refl _, by simpa [retryAux] using h⟩
  | succ n ih =>
    intro e h
    unfold retryAux at h
    cases hop : op i with
    | ok a => rw [hop] at h; exact absurd h (by simp)
    | error e0 =>
      rw [hop] at h
      obtain ⟨k, hk, hop2⟩ := ih (i + 1) e h
      refine ⟨k + 1, Nat.succ_le_succ hk, ?_⟩
      have heq : i + (k + 1) = i + 1 + k := by omega
      rwa [heq]

theorem retryAux_congr {ε α : Type} (op op2 : Nat → Except ε α)
    (h : ∀ k, op k = op2 k) (i : Nat) :
    ∀ fuel, retryAux op i fuel = retryAux op2 i fuel := by
  intro fuel
  induction fuel generalizing i with
  | zero => simp [retryAux, h]
  | succ n ih =>
    unfold retryAux
    rw [h i]
    cases op2 i with
    | ok a => rfl
    | error e => exact ih (i + 1)

theorem wait_once_cases (check_port : Bool) (w : WaitObs) :
    wait_until_mysql_connection_once check_port w = .ok () ∨
    ∃ m, wait_until_mysql_connection_once check_port w =
      .error (.MySQLServiceNotRunningError m) := by
  unfold wait_until_mysql_connection_once
  by_cases h1 : w.socketExists
  · by_cases h2 : check_port && !w.mysqlshConnectionOk
    · right
      exact ⟨"Connection with mysqlsh not possible", by simp [h1, h2]⟩
    · left
      simp [h1, h2]
  · right
    exact ⟨"MySQL socket file not found", by simp [h1]⟩

/-- C2: for every directory listing, is_data_dir_initialised returns true iff
the fixed set of required artifact names is a subset of the listing (extra
entries allowed); any listing missing a required artifact yields false; and a
nonexistent data directory yields false rather than an exception. -/
theorem is_data_dir_initialised_spec :
    (∀ l : List String, is_data_dir_initialised (some l) = true ↔
      ∀ x ∈ expected_content, x ∈ l)
  ∧ (∀ (l : List String) (x : String), x ∈ expected_content → x ∉ l →
      is_data_dir_initialised (some l) = false)
  ∧ is_data_dir_initialised none = false := by
  have hiff : ∀ l : List String, is_data_dir_initialised (some l) = true ↔
      ∀ x ∈ expected_content, x ∈ l := by
    intro l
    simp [is_data_dir_initialised, List.all_eq_true, List.elem_iff]
  refine ⟨hiff, ?_, rfl⟩
  intro l x hx hnl
  cases h : is_data_dir_initialised (some l) with
  | false => rfl
  | true => exact absurd ((hiff l).mp h x hx) hnl

/-- Witness for C2 at concrete listings: the full required set plus an extra
entry is initialised, a partial listing is not, and a missing directory is not. -/
theorem is_data_dir_initialised_witness :
    is_data_dir_initialised (some ("extra-file" :: expected_content)) = true
  ∧ is_data_dir_initialised (some ["mysql", "sys"]) = false
  ∧ is_data_dir_initialised none = false :=
  ⟨(is_data_dir_initialised_spec.1 _).mpr (by decide),
   is_data_dir_initialised_spec.2.1 ["mysql", "sys"] "ca.pem" (by decide) (by decide),
   is_data_dir_initialised_spec.2.2⟩

/-- C7: is_volume_mounted returns true iff the mount-point probe succeeds
within 10 attempts, run at 12-second intervals (elapsed seconds 0, 12, ...,
108); when every attempt fails it returns false and the underlying command
failure never propagates to the caller. -/
theorem is_volume_mounted_spec (probeAt : Nat → Except Nat Unit) :
    (is_volume_mounted probeAt = true ↔ ∃ k, k ≤ 9 ∧ probeAt (12 * k) = .ok ())
  ∧ ((∀ k, k ≤ 9 → probeAt (12 * k) ≠ .ok ()) → is_volume_mounted probeAt = false) := by
  have hiff : is_volume_mounted probeAt = true ↔
      ∃ k, k ≤ 9 ∧ probeAt (12 * k) = .ok () := by
    unfold is_volume_mounted
    have h := retryAux_ok_iff (fun i => probeAt (12 * i)) 0 9
    constructor
    · intro htrue
      cases hr : retryAux (fun i => probeAt (12 * i)) 0 9 with
      | error e => rw [hr] at htrue; exact absurd htrue (by simp)
      | ok a =>
        obtain ⟨k, hk, b, hb⟩ := h.mp ⟨a, hr⟩
        exact ⟨k, hk, by simpa using hb⟩
    · rintro ⟨k, hk, hok⟩
      obtain ⟨a, ha⟩ := h.mpr ⟨k, hk, (), by simpa using hok⟩
      rw [ha]
  refine ⟨hiff, ?_⟩
  intro hall
  cases h : is_volume_mounted probeAt with
  | false => rfl
  | true =>
    obtain ⟨k, hk, hok⟩ := hiff.mp h
    exact absurd hok (hall k hk)

/-- Witness for C7: a probe that first succeeds on the third attempt (elapsed
second 24) yields true; a probe that always exits 32 yields false. -/
theorem is_volume_mounted_witness :
    is_volume_mounted (fun t => if t == 24 then .ok () else .error 1) = true
  ∧ is_volume_mounted (fun _ => .error 32) = false :=
  ⟨(is_volume_mounted_spec _).1.mpr ⟨2, by decide, by decide⟩,
   (is_volume_mounted_spec _).2 (fun k _ => by simp)⟩

/-- C3: wait_until_mysql_connection retries every 5 seconds up to the
120-second deadline (attempts at elapsed seconds 5k, k = 0..24); on every
attempt the absence of the socket file raises MySQLServiceNotRunningError, and
with check_port set a failing mysqlsh probe also raises it; when every attempt
fails, the result is the error of the final attempt, unchanged (always a
MySQLServiceNotRunningError, never a generic retry or timeout error), and with
the socket absent throughout the call never silently succeeds. -/
theorem wait_until_mysql_connection_spec (check_port : Bool) (obsAt : Nat → WaitObs) :
    (∀ t, (obsAt t).socketExists = false →
      wait_until_mysql_connection_once check_port (obsAt t) =
        .error (.MySQLServiceNotRunningError "MySQL socket file not found"))
  ∧ (∀ t, check_port = true → (obsAt t).socketExists = true →
      (obsAt t).mysqlshConnectionOk = false →
      wait_until_mysql_connection_once check_port (obsAt t) =
        .error (.MySQLServiceNotRunningError "Connection with mysqlsh not possible"))
  ∧ ((∀ k, k ≤ 24 → wait_until_mysql_connection_once check_port (obsAt (5 * k)) ≠ .ok ()) →
      wait_until_mysql_connection check_port obsAt =
        wait_until_mysql_connection_once check_port (obsAt 120)
      ∧ ∃ m, wait_until_mysql_connection check_port obsAt =
          .error (.MySQLServiceNotRunningError m))
  ∧ ((∀ k, k ≤ 24 → (obsAt (5 * k)).socketExists = false) →
      wait_until_mysql_connection check_port obsAt =
        .error (.MySQLServiceNotRunningError "MySQL socket file not found")) := by
  have hsock : ∀ t, (obsAt t).socketExists = false →
      wait_until_mysql_connection_once check_port (obsAt t) =
        .error (.MySQLServiceNotRunningError "MySQL socket file not found") := by
    intro t h
    simp [wait_until_mysql_connection_once, h]
  have hlast : (∀ k, k ≤ 24 →
      wait_until_mysql_connection_once check_port (obsAt (5 * k)) ≠ .ok ()) →
      wait_until_mysql_connection check_port obsAt =
        wait_until_mysql_connection_once check_port (obsAt 120) := by
    intro hall
    have h := retryAux_all_fail
      (fun i => wait_until_mysql_connection_once check_port (obsAt (5 * i))) 0 24
      (by
        intro k hk a
        have := hall k hk
        simpa using this)
    simpa [wait_until_mysql_connection] using h
  refine ⟨hsock, ?_, ?_, ?_⟩
  · intro t hcp h1 h2
    simp [wait_until_mysql_connection_once, h1, h2, hcp]
  · intro hall
    refine ⟨hlast hall, ?_⟩
    rcases wait_once_cases check_port (obsAt 120) with hok | ⟨m, hm⟩
    · exact absurd (by simpa using hok) (hall 24 (by omega))
    · exact ⟨m, by rw [hlast hall, hm]⟩
  · intro hall
    have hne : ∀ k, k ≤ 24 →
        wait_until_mysql_connection_once check_port (obsAt (5 * k)) ≠ .ok () := by
      intro k hk
      rw [hsock (5 * k) (hall k hk)]
      simp
    rw [hlast hne, hsock 120 (by simpa using hall 24 (by omega))]

/-- Witness for C3: with the socket absent on every attempt (and check_port
set), the call reports the socket-not-found MySQLServiceNotRunningError. -/
theorem wait_until_mysql_connection_witness :
    wait_until_mysql_connection true (fun _ => ⟨false, true⟩) =
      .error (.MySQLServiceNotRunningError "MySQL socket file not found") :=
  (wait_until_mysql_connection_spec true (fun _ => ⟨false, true⟩)).2.2.2
    (fun _ _ => rfl)

/-- C6: whichever way reset_root_password_and_start_mysqld exits, normally or
with an exception, the two ephemeral bootstrap files (the init SQL file and the
config fragment referencing it) are gone from the filesystem once both
temporary-file scopes have exited. -/
theorem reset_root_password_and_start_mysqld_cleanup
    (cnfName sqlName : String) (env : ResetEnv) (w : SnapWorld) (fs : List String) :
    sqlName ∉ (reset_root_password_and_start_mysqld cnfName sqlName env w fs).2
  ∧ cnfName ∉ (reset_root_password_and_start_mysqld cnfName sqlName env w fs).2 := by
  simp [reset_root_password_and_start_mysqld, withTempFile, List.mem_filter]

theorem snap_service_operation_start (w : SnapWorld) (snapname service : String) :
    snap_service_operation w snapname service "start" =
      (if !w.present then
        (.error (.SnapServiceOperationError ("Snap " ++ snapname ++ " not installed")), w)
      else if w.startRaises then
        (.error (.SnapServiceOperationError ("Failed to run snap service operation, snap=" ++
          snapname ++ ", service=" ++ service ++ ", operation=" ++ "start")), w)
      else (.ok true, { w with active := true })) := by
  rfl

theorem snap_service_operation_stop (w : SnapWorld) (snapname service : String) :
    snap_service_operation w snapname service "stop" =
      (if !w.present then
        (.error (.SnapServiceOperationError ("Snap " ++ snapname ++ " not installed")), w)
      else if w.stopRaises then
        (.error (.SnapServiceOperationError ("Failed to run snap service operation, snap=" ++
          snapname ++ ", service=" ++ service ++ ", operation=" ++ "stop")), w)
      else (.ok true, { w with active := false })) := by
  rfl

theorem snap_service_operation_error_shape (w : SnapWorld) (n s o : String) (e : PyError)
    (w2 : SnapWorld) (h : snap_service_operation w n s o = (.error e, w2)) :
    ∃ m, e = .SnapServiceOperationError m := by
  unfold snap_service_operation at h
  split_ifs at h
  all_goals
    rw [Prod.mk.injEq] at h
  all_goals
    rcases h with ⟨h1, h2⟩
  all_goals
    first
    | (injection h1 with h1; exact ⟨_, h1.symm⟩)
    | exact absurd h1 (by simp)

theorem wait_until_mysql_connection_error_shape (check_port : Bool)
    (obsAt : Nat → WaitObs) (e : PyError)
    (h : wait_until_mysql_connection check_port obsAt = .error e) :
    ∃ m, e = .MySQLServiceNotRunningError m := by
  unfold wait_until_mysql_connection at h
  obtain ⟨k, hk, hop⟩ := retryAux_error_from _ 0 (120 / 5) e h
  have hop2 : wait_until_mysql_connection_once check_port (obsAt (5 * k)) = .error e := by
    simpa using hop
  rcases wait_once_cases check_port (obsAt (5 * k)) with hok | ⟨m, hm⟩
  · rw [hok] at hop2
    exact absurd hop2 (by simp)
  · rw [hm] at hop2
    injection hop2 with h2
    exact ⟨m, h2.symm⟩

theorem start_mysqld_error_shape (w : SnapWorld) (obsAt : Nat → WaitObs)
    (e : PyError) (w2 : SnapWorld) (h : start_mysqld w obsAt = (.error e, w2)) :
    ∃ m, e = .MySQLStartMySQLDError m := by
  unfold start_mysqld at h
  cases hs : snap_service_operation w CHARMED_MYSQL_SNAP_NAME CHARMED_MYSQLD_SERVICE "start" with
  | mk r w3 =>
    rw [hs] at h
    cases r with
    | error e0 =>
      obtain ⟨m, hm⟩ := snap_service_operation_error_shape _ _ _ _ _ _ hs
      subst hm
      simp only [Prod.mk.injEq] at h
      obtain ⟨h1, h2⟩ := h
      injection h1 with h1
      exact ⟨m, h1.symm⟩
    | ok b =>
      cases hw : wait_until_mysql_connection true obsAt with
      | ok u =>
        rw [hw] at h
        exact absurd h (by simp)
      | error e1 =>
        obtain ⟨m, hm⟩ := wait_until_mysql_connection_error_shape true obsAt e1 hw
        subst hm
        rw [hw] at h
        simp only [Prod.mk.injEq] at h
        obtain ⟨h1, h2⟩ := h
        injection h1 with h1
        exact ⟨m, h1.symm⟩

/-- C8: restart_mysqld is exactly the sequential composition of stop_mysqld
followed by start_mysqld, not an atomic primitive: a stop failure propagates
and skips the start; after a successful stop the result is exactly that of
start_mysqld from the stopped state; every start-stage failure surfaces as
MySQLStartMySQLDError; and when the stop succeeds but the snap start fails,
that error propagates while the service is left stopped (the stop is not
undone). -/
theorem restart_mysqld_spec (w : SnapWorld) (obsAt : Nat → WaitObs) :
    (∀ e w2, stop_mysqld w = (.error e, w2) → restart_mysqld w obsAt = (.error e, w2))
  ∧ (∀ w2, stop_mysqld w = (.ok (), w2) → restart_mysqld w obsAt = start_mysqld w2 obsAt)
  ∧ (∀ w2 e w3, stop_mysqld w = (.ok (), w2) → start_mysqld w2 obsAt = (.error e, w3) →
      (restart_mysqld w obsAt).1 = .error e ∧ ∃ m, e = .MySQLStartMySQLDError m)
  ∧ (w.present = true → w.stopRaises = false → w.startRaises = true →
      (restart_mysqld w obsAt).2.active = false ∧
      ∃ m, (restart_mysqld w obsAt).1 = .error (.MySQLStartMySQLDError m)) := by
  have hcomp : ∀ w2, stop_mysqld w = (.ok (), w2) →
      restart_mysqld w obsAt = start_mysqld w2 obsAt := by
    intro w2 h
    unfold restart_mysqld
    rw [h]
  refine ⟨?_, hcomp, ?_, ?_⟩
  · intro e w2 h
    unfold restart_mysqld
    rw [h]
  · intro w2 e w3 hstop hstart
    rw [hcomp w2 hstop, hstart]
    exact ⟨rfl, start_mysqld_error_shape w2 obsAt e w3 hstart⟩
  · intro hp hs hr
    have hstop : stop_mysqld w = (.ok (), { w with active := false }) := by
      unfold stop_mysqld
      rw [snap_service_operation_stop]
      simp [hp, hs]
    have hstart : start_mysqld { w with active := false } obsAt =
        (.error (.MySQLStartMySQLDError ("Failed to run snap service operation, snap=" ++
          CHARMED_MYSQL_SNAP_NAME ++ ", service=" ++ CHARMED_MYSQLD_SERVICE ++
          ", operation=" ++ "start")), { w with active := false }) := by
      unfold start_mysqld
      rw [snap_service_operation_start]
      simp [hp, hr]
    rw [hcomp _ hstop, hstart]
    exact ⟨rfl, _, rfl⟩

/-- Witness for C8 at a concrete world: snap present, service active, snap
start raising and stop succeeding; the restart leaves the service inactive and
surfaces a MySQLStartMySQLDError. -/
theorem restart_mysqld_witness :
    (restart_mysqld ⟨true, true, true, false, false⟩ (fun _ => ⟨true, true⟩)).2.active = false
  ∧ ∃ m, (restart_mysqld ⟨true, true, true, false, false⟩ (fun _ => ⟨true, true⟩)).1 =
      .error (.MySQLStartMySQLDError m) :=
  (restart_mysqld_spec ⟨true, true, true, false, false⟩ (fun _ => ⟨true, true⟩)).2.2.2
    rfl rfl rfl

/-- C9: restart_mysql_exporter is the stop of the exporter sidecar service
followed by its connect/start, with no atomicity guarantee: a stop failure
propagates and skips the connect, and after a successful stop the call behaves
exactly as the connect operation from the post-stop state — the same
stop-then-start shape as the primary service restart. -/
theorem restart_mysql_exporter_spec (u p : String) (w : ExporterWorld) :
    (∀ e w2, stop_mysql_exporter w = (.error e, w2) →
      restart_mysql_exporter u p w = (.error e, w2))
  ∧ (∀ w2, stop_mysql_exporter w = (.ok (), w2) →
      restart_mysql_exporter u p w = connect_mysql_exporter u p w2) := by
  constructor
  · intro e w2 h
    unfold restart_mysql_exporter _stop_mysql_exporter
    rw [h]
  · intro w2 h
    unfold restart_mysql_exporter _stop_mysql_exporter _connect_mysql_exporter
    rw [h]

/-- Witness for C9 at a concrete world (snap present, exporter active, nothing
raising): the restart equals the connect operation applied to the stopped
state. -/
theorem restart_mysql_exporter_witness :
    restart_mysql_exporter "monitoring" "pw"
      ⟨⟨true, true, false, false, false⟩, false, none, none⟩ =
    connect_mysql_exporter "monitoring" "pw"
      ⟨⟨true, false, false, false, false⟩, false, none, none⟩ :=
  (restart_mysql_exporter_spec "monitoring" "pw"
    ⟨⟨true, true, false, false, false⟩, false, none, none⟩).2
    ⟨⟨true, false, false, false, false⟩, false, none, none⟩ (by decide)

theorem wait_no_port_congr (obs obs2 : Nat → WaitObs)
    (h : ∀ t, (obs t).socketExists = (obs2 t).socketExists) :
    wait_until_mysql_connection false obs = wait_until_mysql_connection false obs2 := by
  unfold wait_until_mysql_connection
  apply retryAux_congr
  intro k
  unfold wait_until_mysql_connection_once
  simp [h (5 * k)]

/-- C5: reset_root_password_and_start_mysqld runs its readiness wait with
check_port=False — the result never depends on the administrative connection
probe, only on socket presence — and each failing sub-step (either chown, the
service start, or the readiness wait) aborts the bootstrap with
MySQLResetRootPasswordAndStartMySQLDError carrying the message of that step, with no
retry of the individual sub-steps. -/
theorem reset_root_password_and_start_mysqld_spec
    (cnfName sqlName : String) (env : ResetEnv) (w : SnapWorld) (fs : List String) :
    (env.chownSqlExit ≠ 0 →
      (reset_root_password_and_start_mysqld cnfName sqlName env w fs).1.1 =
        .error (.MySQLResetRootPasswordAndStartMySQLDError
          "Failed to change permissions for temp SQL file"))
  ∧ (env.chownSqlExit = 0 → env.chownCnfExit ≠ 0 →
      (reset_root_password_and_start_mysqld cnfName sqlName env w fs).1.1 =
        .error (.MySQLResetRootPasswordAndStartMySQLDError
          "Failed to change permissions for custom mysql config"))
  ∧ (env.chownSqlExit = 0 → env.chownCnfExit = 0 →
      (w.present = false ∨ w.startRaises = true) →
      (reset_root_password_and_start_mysqld cnfName sqlName env w fs).1.1 =
        .error (.MySQLResetRootPasswordAndStartMySQLDError "Failed to restart mysqld"))
  ∧ (env.chownSqlExit = 0 → env.chownCnfExit = 0 → w.present = true → w.startRaises = false →
      ∀ e2, wait_until_mysql_connection false env.obsAt = .error e2 →
      (reset_root_password_and_start_mysqld cnfName sqlName env w fs).1.1 =
        .error (.MySQLResetRootPasswordAndStartMySQLDError "mysqld service not running"))
  ∧ (∀ probe2 : Nat → Bool,
      reset_root_password_and_start_mysqld cnfName sqlName
        { env with obsAt := fun t => ⟨(env.obsAt t).socketExists, probe2 t⟩ } w fs =
      reset_root_password_and_start_mysqld cnfName sqlName env w fs) := by
  have hfst : ∀ env1 : ResetEnv,
      (reset_root_password_and_start_mysqld cnfName sqlName env1 w fs).1 =
        reset_root_password_and_start_mysqld_body env1 w := fun _ => rfl
  refine ⟨?_, ?_, ?_, ?_, ?_⟩
  · intro h
    rw [hfst]
    simp [reset_root_password_and_start_mysqld_body, h]
  · intro h1 h2
    rw [hfst]
    simp [reset_root_password_and_start_mysqld_body, h1, h2]
  · intro h1 h2 hp
    rw [hfst]
    unfold reset_root_password_and_start_mysqld_body
    rw [snap_service_operation_start]
    rcases hp with hp | hp
    · simp [h1, h2, hp]
    · cases hpres : w.present with
      | false => simp [h1, h2, hpres]
      | true => simp [h1, h2, hpres, hp]
  · intro h1 h2 hp hs e2 hw
    obtain ⟨m, hm⟩ := wait_until_mysql_connection_error_shape false env.obsAt e2 hw
    subst hm
    rw [hfst]
    unfold reset_root_password_and_start_mysqld_body
    rw [snap_service_operation_start, hw]
    simp [h1, h2, hp, hs]
  · intro probe2
    have hwait : wait_until_mysql_connection false
        (fun t => (⟨(env.obsAt t).socketExists, probe2 t⟩ : WaitObs)) =
        wait_until_mysql_connection false env.obsAt :=
      wait_no_port_congr _ _ (fun _ => rfl)
    have hbody : reset_root_password_and_start_mysqld_body
        { env with obsAt := fun t => ⟨(env.obsAt t).socketExists, probe2 t⟩ } w =
        reset_root_password_and_start_mysqld_body env w := by
      unfold reset_root_password_and_start_mysqld_body
      simp only [hwait]
    unfold reset_root_password_and_start_mysqld withTempFile
    simp only [hbody]

/-- Witness for C5 at concrete inputs: a failing first chown aborts with the
SQL-file message, and with both chowns fine, the snap present and the socket
never appearing, the bootstrap aborts with the service-not-running message. -/
theorem reset_root_password_and_start_mysqld_witness :
    (reset_root_password_and_start_mysqld "z-custom-init-file.cnf" "alter-root-user.sql"
      ⟨1, 0, fun _ => ⟨true, true⟩⟩ ⟨true, false, false, false, false⟩ []).1.1 =
      .error (.MySQLResetRootPasswordAndStartMySQLDError
        "Failed to change permissions for temp SQL file")
  ∧ (reset_root_password_and_start_mysqld "z-custom-init-file.cnf" "alter-root-user.sql"
      ⟨0, 0, fun _ => ⟨false, true⟩⟩ ⟨true, false, false, false, false⟩ []).1.1 =
      .error (.MySQLResetRootPasswordAndStartMySQLDError "mysqld service not running") :=
  ⟨(reset_root_password_and_start_mysqld_spec "z-custom-init-file.cnf" "alter-root-user.sql"
      ⟨1, 0, fun _ => ⟨true, true⟩⟩ ⟨true, false, false, false, false⟩ []).1 (by decide),
   (reset_root_password_and_start_mysqld_spec "z-custom-init-file.cnf" "alter-root-user.sql"
      ⟨0, 0, fun _ => ⟨false, true⟩⟩ ⟨true, false, false, false, false⟩ []).2.2.2.1 rfl rfl rfl rfl
      (.MySQLServiceNotRunningError "MySQL socket file not found") (by decide)⟩

theorem install_try_body_ok_marker (env : InstallEnv) (s s2 : InstallState)
    (h : install_try_body env s = (.ok (), s2)) : s2.markerExists = true := by
  unfold install_try_body at h
  dsimp only at h
  repeat' split at h
  all_goals simp_all
  all_goals
    subst h
  all_goals rfl

/-- C4: install_and_configure_mysql_dependencies raises when the snap is
already present and the installed-by-this-charm marker file is absent; a
snap.SnapError from the install sequence propagates unmodified; every other
failure of the sequence is wrapped into MySQLInstallError; and a successful
install leaves the marker file present, so a subsequent call on the resulting
state never raises the already-installed exception. -/
theorem install_and_configure_mysql_dependencies_spec
    (env env2 : InstallEnv) (s : InstallState) :
    (s.snapPresent = true → s.markerExists = false →
      install_and_configure_mysql_dependencies env s =
        (.error (.plainException ("Multiple " ++ CHARMED_MYSQL_SNAP_NAME ++
          " snap installs not supported on one machine")), s))
  ∧ (∀ s2, (s.snapPresent && !s.markerExists) = false →
      install_try_body env s = (.error .snapError, s2) →
      install_and_configure_mysql_dependencies env s = (.error .snapErrorRaw, s2))
  ∧ (∀ e s2, (s.snapPresent && !s.markerExists) = false →
      install_try_body env s = (.error e, s2) → e ≠ .snapError →
      install_and_configure_mysql_dependencies env s = (.error .MySQLInstallError, s2))
  ∧ (∀ s2, install_and_configure_mysql_dependencies env s = (.ok (), s2) →
      s2.markerExists = true ∧
      ∀ r s3 m, install_and_configure_mysql_dependencies env2 s2 = (r, s3) →
        r ≠ .error (.plainException m)) := by
  refine ⟨?_, ?_, ?_, ?_⟩
  · intro h1 h2
    simp [install_and_configure_mysql_dependencies, h1, h2]
  · intro s2 hguard hbody
    unfold install_and_configure_mysql_dependencies
    rw [hguard, hbody]
    simp
  · intro e s2 hguard hbody hne
    unfold install_and_configure_mysql_dependencies
    rw [hguard, hbody]
    cases e <;> simp_all
  · intro s2 hok
    unfold install_and_configure_mysql_dependencies at hok
    have hbody : install_try_body env s = (.ok (), s2) := by
      by_cases hguard : (s.snapPresent && !s.markerExists) = true
      · rw [if_pos hguard] at hok
        exact absurd hok (by simp)
      · rw [if_neg hguard] at hok
        cases hb : install_try_body env s with
        | mk r s0 =>
          rw [hb] at hok
          cases r with
          | ok u =>
            cases u
            dsimp only at hok
            simp only [Prod.mk.injEq] at hok
            rw [hok.2]
          | error e0 => cases e0 <;> exact absurd hok (by simp)
    have hmarker : s2.markerExists = true :=
      install_try_body_ok_marker env s s2 hbody
    refine ⟨hmarker, ?_⟩
    intro r s3 m h23
    unfold install_and_configure_mysql_dependencies at h23
    rw [hmarker] at h23
    simp only [Bool.not_true, Bool.and_false, Bool.false_eq_true, if_false] at h23
    cases hb2 : install_try_body env2 s2 with
    | mk r0 s0 =>
      rw [hb2] at h23
      cases r0 with
      | ok u =>
        cases u
        dsimp only at h23
        simp only [Prod.mk.injEq] at h23
        rw [← h23.1]
        simp
      | error e0 =>
        cases e0 <;>
          (dsimp only at h23
           simp only [Prod.mk.injEq] at h23
           rw [← h23.1]
           simp)

/-- Witness for C4 at concrete states: the collision guard fires with the snap
present and the marker absent; a snapError from the snap ensure step surfaces
as the raw snap error; a CalledProcessError is wrapped into MySQLInstallError;
and after a fully successful install the marker is set and a re-run does not
raise the already-installed exception. -/
theorem install_and_configure_mysql_dependencies_witness :
    install_and_configure_mysql_dependencies
        ⟨none, none, none, "snap_daemon", none, none⟩ ⟨true, false, false, false, "root"⟩ =
      (.error (.plainException ("Multiple " ++ CHARMED_MYSQL_SNAP_NAME ++
        " snap installs not supported on one machine")), ⟨true, false, false, false, "root"⟩)
  ∧ install_and_configure_mysql_dependencies
        ⟨some .snapError, none, none, "snap_daemon", none, none⟩
        ⟨false, false, false, false, "root"⟩ =
      (.error .snapErrorRaw, ⟨false, false, false, false, "root"⟩)
  ∧ install_and_configure_mysql_dependencies
        ⟨some .calledProcessError, none, none, "snap_daemon", none, none⟩
        ⟨false, false, false, false, "root"⟩ =
      (.error .MySQLInstallError, ⟨false, false, false, false, "root"⟩)
  ∧ (⟨true, true, true, true, "snap_daemon"⟩ : InstallState).markerExists = true
  ∧ (.ok () : Except PyError Unit) ≠
      .error (.plainException ("Multiple " ++ CHARMED_MYSQL_SNAP_NAME ++
        " snap installs not supported on one machine")) := by
  refine ⟨?_, ?_, ?_, ?_, ?_⟩
  · exact (install_and_configure_mysql_dependencies_spec
      ⟨none, none, none, "snap_daemon", none, none⟩
      ⟨none, none, none, "snap_daemon", none, none⟩
      ⟨true, false, false, false, "root"⟩).1 rfl rfl
  · exact (install_and_configure_mysql_dependencies_spec
      ⟨some .snapError, none, none, "snap_daemon", none, none⟩
      ⟨some .snapError, none, none, "snap_daemon", none, none⟩
      ⟨false, false, false, false, "root"⟩).2.1
      ⟨false, false, false, false, "root"⟩ rfl (by decide)
  · exact (install_and_configure_mysql_dependencies_spec
      ⟨some .calledProcessError, none, none, "snap_daemon", none, none⟩
      ⟨some .calledProcessError, none, none, "snap_daemon", none, none⟩
      ⟨false, false, false, false, "root"⟩).2.2.1
      .calledProcessError ⟨false, false, false, false, "root"⟩ rfl (by decide) (by decide)
  · exact ((install_and_configure_mysql_dependencies_spec
      ⟨none, none, none, "snap_daemon", none, none⟩
      ⟨none, none, none, "snap_daemon", none, none⟩
      ⟨false, false, false, false, "root"⟩).2.2.2
      ⟨true, true, true, true, "snap_daemon"⟩ (by decide)).1
  · exact ((install_and_configure_mysql_dependencies_spec
      ⟨none, none, none, "snap_daemon", none, none⟩
      ⟨none, none, none, "snap_daemon", none, none⟩
      ⟨false, false, false, false, "root"⟩).2.2.2
      ⟨true, true, true, true, "snap_daemon"⟩ (by decide)).2
      (.ok ()) ⟨true, true, true, true, "snap_daemon"⟩
      ("Multiple " ++ CHARMED_MYSQL_SNAP_NAME ++ " snap installs not supported on one machine")
      (by decide)

/-- C1 (refuting evaluation): when the initial permission-relaxation command
(chmod 770 on the data directory) exits with status 1 and every later step
succeeds, restore_backup does not abort and does not raise
MySQLRestoreBackupError: the subprocess.run call omits check=True, so a
failing chmod never raises CalledProcessError, the except handler is
unreachable for a plain command failure, and the restore step still runs and
its output is returned. -/
theorem restore_backup_ignores_failed_chmod :
    restore_backup
      ⟨⟨1, "", "chmod: cannot access target"⟩, ⟨0, "", ""⟩, ⟨0, "", ""⟩,
        .ok ("xtrabackup stdout", "xtrabackup stderr")⟩ =
    (.ok ("xtrabackup stdout", "xtrabackup stderr"), true) := rfl

/-- C10: _execute_commands wraps the joined command in a bash invocation with
pipefail when the bash flag is set (running with the flag equals running the
wrapped argv without it); on zero exit it returns stdout and stderr trimmed of
surrounding whitespace; on nonzero exit it raises MySQLExecError carrying the
captured stderr; and the outcome is determined by that single invocation of the
executed argv under the updated environment. -/
theorem execute_commands_spec
    (run : List String → Option String → Option String →
      List (String × String) → CmdResult)
    (osEnviron : List (String × String)) (commands : List String) (bash : Bool)
    (user group : Option String) (env_extra : List (String × String)) :
    (bash = true →
      _execute_commands run osEnviron commands true user group env_extra =
      _execute_commands run osEnviron
        ["bash", "-c", "set -o pipefail; " ++ String.intercalate " " commands]
        false user group env_extra)
  ∧ ((run (if bash then
        ["bash", "-c", "set -o pipefail; " ++ String.intercalate " " commands]
       else commands) user group (envUpdate osEnviron env_extra)).exitCode = 0 →
      _execute_commands run osEnviron commands bash user group env_extra =
        .ok ((run (if bash then
            ["bash", "-c", "set -o pipefail; " ++ String.intercalate " " commands]
          else commands) user group (envUpdate osEnviron env_extra)).stdout.trim,
          (run (if bash then
            ["bash", "-c", "set -o pipefail; " ++ String.intercalate " " commands]
          else commands) user group (envUpdate osEnviron env_extra)).stderr.trim))
  ∧ ((run (if bash then
        ["bash", "-c", "set -o pipefail; " ++ String.intercalate " " commands]
       else commands) user group (envUpdate osEnviron env_extra)).exitCode ≠ 0 →
      _execute_commands run osEnviron commands bash user group env_extra =
        .error (.MySQLExecError (run (if bash then
            ["bash", "-c", "set -o pipefail; " ++ String.intercalate " " commands]
          else commands) user group (envUpdate osEnviron env_extra)).stderr)) := by
  refine ⟨?_, ?_, ?_⟩
  · intro _
    rfl
  · intro h
    unfold _execute_commands
    cases bash <;> simp_all
  · intro h
    unfold _execute_commands
    cases bash <;> simp_all

/-- Witness for C10: a bash-wrapped invocation whose command exits 0 returns
the trimmed output pair, and a direct command exiting 1 raises MySQLExecError
with the captured stderr. -/
theorem execute_commands_witness :
    _execute_commands (fun _ _ _ _ => (⟨0, " 3 ", ""⟩ : CmdResult))
      [] ["echo", "hi", "|", "wc", "-c"] true none none [] = .ok (" 3 ".trim, "".trim)
  ∧ _execute_commands (fun _ _ _ _ => (⟨1, "", "boom"⟩ : CmdResult))
      [] ["false"] false none none [] = .error (.MySQLExecError "boom") :=
  ⟨(execute_commands_spec (fun _ _ _ _ => (⟨0, " 3 ", ""⟩ : CmdResult))
      [] ["echo", "hi", "|", "wc", "-c"] true none none []).2.1 rfl,
   (execute_commands_spec (fun _ _ _ _ => (⟨1, "", "boom"⟩ : CmdResult))
      [] ["false"] false none none []).2.2 (by decide)⟩
